import Mathlib

/-! Verification development for the MCP calculator client.

This file gives a shallow embedding, in Lean, of the orchestration code of
the `MCPClient` class in `src/client_calculator_script.py` (the methods
`connect_to_server` and `process_query`) and proves the specified
properties about it.

External collaborators (the MCP server subprocess and the Ollama chat
backend) are modelled as oracles. A `Session` is a pair of pure functions
giving the outcome of `list_tools` and of each `call_tool` invocation,
where `Except.error e` stands for a raised exception with message `e`
(an unknown tool name makes the MCP call raise, so it is an
`Except.error` outcome here as well). `Ollama.chat` is a pure function of
the model name, the message list and the optional tool schema. Python
string renderings that the client merely passes through (`json.dumps`
for a dict or list payload, `str` for anything else) are carried as data
on the payload. `process_query` is instrumented to return, besides its
result, the trace of external events (tool listing, model calls, tool
invocations) and the final state of the local `messages` list, so that
claims about call counts and message order can be stated. -/

/-- Argument mapping of one requested tool call; the client passes it
through opaquely, so keys and values are plain strings here. -/
abbrev Args := List (String × String)

/-- One requested tool invocation as found in an assistant response
(its `function` sub-object: name and argument mapping). -/
structure ToolCall where
  name : String
  args : Args
  deriving DecidableEq

/-- A chat response message from Ollama: optional text content and
optional requested tool calls; an absent key is modelled as `none`. -/
structure ChatResponse where
  content : Option String
  tool_calls : Option (List ToolCall)
  deriving DecidableEq

/-- One conversational turn of the local `messages` list. -/
inductive Message where
  | user (content : String)
  | assistant (response_message : ChatResponse)
  | tool (content : String)
  deriving DecidableEq

/-- Content payload of a tool result, carrying the rendering the client
would compute from it: `json.dumps` output for a dict or list payload,
`str` output for any other Python value. -/
inductive PyObj where
  | collection (dumps : String)
  | atom (str : String)
  deriving DecidableEq

/-- Result object returned by a successful `session.call_tool`. -/
structure CallToolResult where
  content : PyObj
  deriving DecidableEq

/-- Input schema of an MCP tool descriptor: the `properties` and
`required` keys, each possibly absent from the schema dictionary. -/
structure InputSchema where
  properties : Option (List (String × String))
  required : Option (List String)
  deriving DecidableEq

/-- One MCP tool descriptor as returned by `list_tools`. -/
structure MCPTool where
  name : String
  description : String
  inputSchema : InputSchema
  deriving DecidableEq

/-- The `parameters` object of one adapted schema entry (lines 99-103). -/
structure ToolParameters where
  type : String
  properties : List (String × String)
  required : List String
  deriving DecidableEq

/-- The `function` object of one adapted schema entry (lines 96-104). -/
structure ToolFunction where
  name : String
  description : String
  parameters : ToolParameters
  deriving DecidableEq

/-- One entry of the `available_tools` list (lines 94-105). -/
structure AvailableTool where
  type : String
  function : ToolFunction
  deriving DecidableEq

/-- The schema entry built from one descriptor (the body of the list
comprehension at lines 93-107): `properties` defaults to the empty
mapping and `required` to the empty list when the descriptor omits
them. -/
def adaptTool (tool : MCPTool) : AvailableTool :=
  { type := "function"
    function :=
      { name := tool.name
        description := tool.description
        parameters :=
          { type := "object"
            properties := tool.inputSchema.properties.getD []
            required := tool.inputSchema.required.getD [] } } }

/-- The `available_tools` list comprehension (lines 93-107): one schema
entry per descriptor, in catalog order. -/
def available_tools (tools : List MCPTool) : List AvailableTool :=
  tools.map adaptTool

/-- Oracle for the MCP session: the outcome of the per-query
`list_tools` call and of each `call_tool` invocation. `Except.error e`
stands for a raised exception with message `e`; in particular a call to
a tool name absent from the catalog raises, hence is an `Except.error`
outcome. -/
structure Session where
  list_tools : Except String (List MCPTool)
  call_tool : String → Args → Except String CallToolResult

/-- Oracle for the Ollama backend: `chat` as a pure function of the
model name, the messages and the optional `tools` argument (passed on
the decision call, omitted on the summary call). -/
structure Ollama where
  chat : String → List Message → Option (List AvailableTool) → Except String ChatResponse

/-- The client state `process_query` reads: the configured model name
and the optional connected session. -/
structure MCPClient where
  model : String
  session : Option Session

/-- One external event of a `process_query` run. -/
inductive Event where
  | listTools
  | modelCall (messages : List Message) (tools : Option (List AvailableTool))
  | toolInvoke (name : String) (args : Args)

/-- Which uncaught exception escaped `process_query` and failed the
whole query. -/
inductive QueryError where
  | toolListing (e : String)
  | decisionCall (e : String)
  | summaryCall (e : String)
  | missingSummaryContent
  deriving DecidableEq

/-- Lines 139-143: `content_str`, the textual rendering of a successful
tool result (`json.dumps` for a dict or list payload, `str` otherwise;
both renderings are carried as data on the payload). -/
def content_str (result : CallToolResult) : String :=
  match result.content with
  | PyObj.collection dumps => dumps
  | PyObj.atom str => str

/-- One iteration of the tool-call loop (lines 136-162): the report line
pushed onto `tool_outputs`, paired with the content of the `tool`
message appended to the conversation. A successful call records the
rendered result; a raised exception is converted to a textual error
description and recorded the same way. -/
def toolOutcome (session : Session) (tool_call : ToolCall) : String × String :=
  match session.call_tool tool_call.name tool_call.args with
  | Except.ok result =>
      ("[Tool '" ++ tool_call.name ++ "' returned: " ++ content_str result ++ "]",
       content_str result)
  | Except.error e =>
      ("[" ++ ("Error calling tool '" ++ tool_call.name ++ "': " ++ e) ++ "]",
       "Error calling tool '" ++ tool_call.name ++ "': " ++ e)

/-- Instrumented outcome of one `process_query` run: the returned string
(or the escaped exception), the trace of external events, and the final
state of the local `messages` list. -/
structure QueryRun where
  result : Except QueryError String
  events : List Event
  final_messages : List Message

/-- Lines 69-179: `process_query`, instrumented with its event trace and
final conversation. Each `match` on an oracle outcome mirrors either a
raised exception propagating (no `try` around the listing and the two
chat calls) or the `try`/`except` around one tool call; the summary
response's content is read with direct indexing, so its absence is a
`KeyError` failing the query. -/
def process_query (client : MCPClient) (ollama : Ollama) (query : String) : QueryRun :=
  match client.session with
  | none =>
      { result := Except.ok "Error: Not connected to a server."
        events := []
        final_messages := [] }
  | some session =>
      let messages : List Message := [Message.user query]
      match session.list_tools with
      | Except.error e =>
          { result := Except.error (QueryError.toolListing e)
            events := [Event.listTools]
            final_messages := messages }
      | Except.ok tools =>
          let schema := available_tools tools
          match ollama.chat client.model messages (some schema) with
          | Except.error e =>
              { result := Except.error (QueryError.decisionCall e)
                events := [Event.listTools, Event.modelCall messages (some schema)]
                final_messages := messages }
          | Except.ok response_message =>
              let messages := messages ++ [Message.assistant response_message]
              let tool_calls := response_message.tool_calls.getD []
              if tool_calls.isEmpty then
                { result := Except.ok (response_message.content.getD "Sorry, I received no content.")
                  events := [Event.listTools, Event.modelCall [Message.user query] (some schema)]
                  final_messages := messages }
              else
                let tool_outputs := tool_calls.map (fun tc => (toolOutcome session tc).1)
                let messages := messages ++ tool_calls.map (fun tc => Message.tool (toolOutcome session tc).2)
                let events :=
                  [Event.listTools, Event.modelCall [Message.user query] (some schema)] ++
                    tool_calls.map (fun tc => Event.toolInvoke tc.name tc.args) ++
                      [Event.modelCall messages none]
                let result :=
                  match ollama.chat client.model messages none with
                  | Except.error e => Except.error (QueryError.summaryCall e)
                  | Except.ok final_response =>
                      match final_response.content with
                      | none => Except.error QueryError.missingSummaryContent
                      | some final_message =>
                          Except.ok (String.intercalate "\n" tool_outputs ++ "\n\n" ++ final_message)
                { result := result
                  events := events
                  final_messages := messages }

/-- Python `str.endswith`, as a character-level suffix test (used at
lines 41-42 on the server script path). -/
def endswith (s suffix : String) : Bool :=
  List.isSuffixOf suffix.data s.data

/-- The server parameters built at lines 47-51. -/
structure StdioServerParameters where
  command : String
  args : List String
  env : Option (List (String × String))
  deriving DecidableEq

/-- Lines 34-51 of `connect_to_server`: the script-kind check and the
server parameters it produces. `Except.error` is the `ValueError` raised
at line 44, before any subprocess is launched: no parameters (hence no
launch command) exist in that case. -/
def connect_to_server (server_script_path : String) : Except String StdioServerParameters :=
  let is_python := endswith server_script_path ".py"
  let is_js := endswith server_script_path ".js"
  if !(is_python || is_js) then
    Except.error "Server script must be a .py or .js file"
  else
    Except.ok
      { command := if is_python then "python" else "node"
        args := [server_script_path]
        env := none }

/-- The model calls recorded in a trace. -/
def modelCalls (events : List Event) : List Event :=
  events.filter (fun e => match e with | Event.modelCall _ _ => true | _ => false)

/-- How many model calls a trace records. -/
def numModelCalls (events : List Event) : Nat :=
  (modelCalls events).length

/-- How many tool-offering (decision-shaped) model calls a trace
records: chat invocations that passed a tool schema. -/
def numDecisionCalls (events : List Event) : Nat :=
  (events.filter (fun e => match e with | Event.modelCall _ (some _) => true | _ => false)).length

/-- Contents of the `tool`-role messages of a conversation, in order. -/
def toolMessageContents (messages : List Message) : List String :=
  messages.filterMap (fun m => match m with | Message.tool c => some c | _ => none)

/-- The tool invocations recorded in a trace, in order. -/
def toolInvocations (events : List Event) : List (String × Args) :=
  events.filterMap (fun e => match e with | Event.toolInvoke n a => some (n, a) | _ => none)

/-- The `add` tool of `src/mcp_calculator_server.py`, as a descriptor. -/
def addTool : MCPTool :=
  { name := "add"
    description := "Add two numbers"
    inputSchema :=
      { properties := some [("a", "integer"), ("b", "integer")]
        required := some ["a", "b"] } }

/-- The `math_web_search` tool of `src/mcp_calculator_server.py`. -/
def mathWebSearchTool : MCPTool :=
  { name := "math_web_search"
    description := "Search the web for information about math"
    inputSchema :=
      { properties := some [("query", "string")]
        required := some ["query"] } }

/-- A descriptor whose input schema omits both keys, exercising the
adapter defaults. -/
def bareTool : MCPTool :=
  { name := "bare"
    description := "descriptor with an empty input schema"
    inputSchema := { properties := none, required := none } }

/-- A session over the calculator catalog: `add` succeeds with `4`,
`math_web_search` succeeds with a text answer, and any other tool name
raises. -/
def demoSession : Session :=
  { list_tools := Except.ok [addTool, mathWebSearchTool]
    call_tool := fun name _ =>
      if name = "add" then Except.ok { content := PyObj.atom "4" }
      else if name = "math_web_search" then
        Except.ok { content := PyObj.atom "2 plus 2 equals 4." }
      else Except.error ("Unknown tool: " ++ name) }

/-- A session whose per-query tool listing raises. -/
def failingListSession : Session :=
  { list_tools := Except.error "listing failed"
    call_tool := fun _ _ => Except.error "unreachable" }

/-- A requested call to `math_web_search` (catalog position B). -/
def demoCallB : ToolCall :=
  { name := "math_web_search", args := [("query", "what is 2+2")] }

/-- A requested call to `add` (catalog position A). -/
def demoCallA : ToolCall :=
  { name := "add", args := [("a", "2"), ("b", "2")] }

/-- A decision response requesting `[B, A]`: the reverse of the catalog
order `[A, B]`. -/
def reorderResponse : ChatResponse :=
  { content := none, tool_calls := some [demoCallB, demoCallA] }

/-- A backend whose decision call requests `[B, A]` and whose summary
call answers with text. -/
def reorderOllama : Ollama :=
  { chat := fun _ _ tools =>
      match tools with
      | some _ => Except.ok reorderResponse
      | none => Except.ok { content := some "The answer is 4.", tool_calls := none } }

/-- A decision response requesting a nonexistent tool `divide` and then
the existing tool `add`. -/
def divideThenAddResponse : ChatResponse :=
  { content := none
    tool_calls := some [{ name := "divide", args := [("a", "4"), ("b", "2")] }, demoCallA] }

/-- A backend whose decision call requests a failing call followed by a
successful one. -/
def divideThenAddOllama : Ollama :=
  { chat := fun _ _ tools =>
      match tools with
      | some _ => Except.ok divideThenAddResponse
      | none => Except.ok { content := some "Summary.", tool_calls := none } }

/-- A backend that answers the decision call with direct text and no
tool calls. -/
def directOllama : Ollama :=
  { chat := fun _ _ tools =>
      match tools with
      | some _ => Except.ok { content := some "Hi there!", tool_calls := none }
      | none => Except.error "unreachable" }

/-- A decision response that carries both text content and a non-empty
tool-call list. -/
def bothResponse : ChatResponse :=
  { content := some "I will add those.", tool_calls := some [demoCallA] }

/-- A backend whose decision call returns both content and tool calls. -/
def bothOllama : Ollama :=
  { chat := fun _ _ tools =>
      match tools with
      | some _ => Except.ok bothResponse
      | none => Except.ok { content := some "Done: 4.", tool_calls := none } }

/-- A decision response requesting one `add` call. -/
def addOnlyResponse : ChatResponse :=
  { content := none, tool_calls := some [demoCallA] }

/-- A backend whose decision call requests one tool call and whose
summary call raises. -/
def failingSummaryOllama : Ollama :=
  { chat := fun _ _ tools =>
      match tools with
      | some _ => Except.ok addOnlyResponse
      | none => Except.error "summary failed" }

@[simp] theorem numModelCalls_nil : numModelCalls [] = 0 := rfl

@[simp] theorem numModelCalls_cons_listTools (rest : List Event) :
    numModelCalls (Event.listTools :: rest) = numModelCalls rest := rfl

@[simp] theorem numModelCalls_cons_modelCall (m : List Message)
    (t : Option (List AvailableTool)) (rest : List Event) :
    numModelCalls (Event.modelCall m t :: rest) = numModelCalls rest + 1 := by
  simp [numModelCalls, modelCalls, Nat.add_comm]

@[simp] theorem numModelCalls_cons_toolInvoke (n : String) (a : Args) (rest : List Event) :
    numModelCalls (Event.toolInvoke n a :: rest) = numModelCalls rest := rfl

@[simp] theorem numModelCalls_append (l r : List Event) :
    numModelCalls (l ++ r) = numModelCalls l + numModelCalls r := by
  simp [numModelCalls, modelCalls, List.filter_append]

@[simp] theorem numModelCalls_map_toolInvoke (calls : List ToolCall) :
    numModelCalls (calls.map fun tc => Event.toolInvoke tc.name tc.args) = 0 := by
  induction calls with
  | nil => rfl
  | cons c cs ih => simpa using ih

@[simp] theorem numDecisionCalls_nil : numDecisionCalls [] = 0 := rfl

@[simp] theorem numDecisionCalls_cons_listTools (rest : List Event) :
    numDecisionCalls (Event.listTools :: rest) = numDecisionCalls rest := rfl

@[simp] theorem numDecisionCalls_cons_modelCall_some (m : List Message)
    (s : List AvailableTool) (rest : List Event) :
    numDecisionCalls (Event.modelCall m (some s) :: rest) = numDecisionCalls rest + 1 := by
  simp [numDecisionCalls, Nat.add_comm]

@[simp] theorem numDecisionCalls_cons_modelCall_none (m : List Message) (rest : List Event) :
    numDecisionCalls (Event.modelCall m none :: rest) = numDecisionCalls rest := rfl

@[simp] theorem numDecisionCalls_cons_toolInvoke (n : String) (a : Args) (rest : List Event) :
    numDecisionCalls (Event.toolInvoke n a :: rest) = numDecisionCalls rest := rfl

@[simp] theorem numDecisionCalls_append (l r : List Event) :
    numDecisionCalls (l ++ r) = numDecisionCalls l + numDecisionCalls r := by
  simp [numDecisionCalls, List.filter_append]

@[simp] theorem numDecisionCalls_map_toolInvoke (calls : List ToolCall) :
    numDecisionCalls (calls.map fun tc => Event.toolInvoke tc.name tc.args) = 0 := by
  induction calls with
  | nil => rfl
  | cons c cs ih => simpa using ih

@[simp] theorem toolMessageContents_nil : toolMessageContents [] = [] := rfl

@[simp] theorem toolMessageContents_cons_user (c : String) (rest : List Message) :
    toolMessageContents (Message.user c :: rest) = toolMessageContents rest := rfl

@[simp] theorem toolMessageContents_cons_assistant (r : ChatResponse) (rest : List Message) :
    toolMessageContents (Message.assistant r :: rest) = toolMessageContents rest := rfl

@[simp] theorem toolMessageContents_cons_tool (c : String) (rest : List Message) :
    toolMessageContents (Message.tool c :: rest) = c :: toolMessageContents rest := rfl

@[simp] theorem toolMessageContents_append (l r : List Message) :
    toolMessageContents (l ++ r) = toolMessageContents l ++ toolMessageContents r := by
  simp [toolMessageContents, List.filterMap_append]

@[simp] theorem toolMessageContents_map_tool (f : ToolCall → String) (calls : List ToolCall) :
    toolMessageContents (calls.map fun tc => Message.tool (f tc)) = calls.map f := by
  induction calls with
  | nil => rfl
  | cons c cs ih => simpa using ih

@[simp] theorem toolInvocations_nil : toolInvocations [] = [] := rfl

@[simp] theorem toolInvocations_cons_listTools (rest : List Event) :
    toolInvocations (Event.listTools :: rest) = toolInvocations rest := rfl

@[simp] theorem toolInvocations_cons_modelCall (m : List Message)
    (t : Option (List AvailableTool)) (rest : List Event) :
    toolInvocations (Event.modelCall m t :: rest) = toolInvocations rest := rfl

@[simp] theorem toolInvocations_cons_toolInvoke (n : String) (a : Args) (rest : List Event) :
    toolInvocations (Event.toolInvoke n a :: rest) = (n, a) :: toolInvocations rest := rfl

@[simp] theorem toolInvocations_append (l r : List Event) :
    toolInvocations (l ++ r) = toolInvocations l ++ toolInvocations r := by
  simp [toolInvocations, List.filterMap_append]

@[simp] theorem toolInvocations_map_toolInvoke (calls : List ToolCall) :
    toolInvocations (calls.map fun tc => Event.toolInvoke tc.name tc.args) =
      calls.map fun tc => (tc.name, tc.args) := by
  induction calls with
  | nil => rfl
  | cons c cs ih => simpa using ih

/-- A path cannot end both in `.py` and in `.js`: the two dispatch
branches of `connect_to_server` are exclusive. -/
theorem endswith_py_not_js (p : String)
    (hpy : endswith p ".py" = true) (hjs : endswith p ".js" = true) : False := by
  have hd1 : (".py").data = ['.', 'p', 'y'] := rfl
  have hd2 : (".js").data = ['.', 'j', 's'] := rfl
  unfold endswith at hpy hjs
  rw [hd1] at hpy
  rw [hd2] at hjs
  rw [List.isSuffixOf_iff_suffix] at hpy hjs
  have h := List.suffix_of_suffix_length_le hpy hjs (by simp)
  have h2 := h.eq_of_length (by simp)
  simp at h2

/-- C10: with no connected session, `process_query` returns exactly the
fixed error string and performs no tool listing, no model call and no
tool call (an empty event trace). -/
theorem no_session_short_circuit (model query : String) (ollama : Ollama) :
    process_query { model := model, session := none } ollama query =
      { result := Except.ok "Error: Not connected to a server."
        events := []
        final_messages := [] } := rfl

/-- C9: `connect_to_server` rejects a path ending neither in `.py` nor
in `.js` with the `ValueError`, producing no launch parameters at all;
a `.py` path selects the runner `python` and a `.js` path the runner
`node`, each invoked with the script path as its sole argument. -/
theorem connect_script_kind_dispatch (p : String) :
    (endswith p ".py" = false → endswith p ".js" = false →
      connect_to_server p = Except.error "Server script must be a .py or .js file") ∧
    (endswith p ".py" = true →
      connect_to_server p = Except.ok { command := "python", args := [p], env := none }) ∧
    (endswith p ".js" = true →
      connect_to_server p = Except.ok { command := "node", args := [p], env := none }) := by
  refine ⟨?_, ?_, ?_⟩
  · intro h1 h2
    simp [connect_to_server, h1, h2]
  · intro h1
    simp [connect_to_server, h1]
  · intro h2
    have h1 : endswith p ".py" = false := by
      cases h : endswith p ".py" with
      | false => rfl
      | true => exact absurd (endswith_py_not_js p h h2) (fun h => h)
    simp [connect_to_server, h1, h2]

/-- C9 witness: the dispatch evaluated on an unsupported path, on the
repository's own server script, and on a `.js` path. -/
theorem connect_script_kind_dispatch_witness :
    connect_to_server "calculator.txt" = Except.error "Server script must be a .py or .js file" ∧
    connect_to_server "mcp_calculator_server.py" =
      Except.ok { command := "python", args := ["mcp_calculator_server.py"], env := none } ∧
    connect_to_server "server.js" =
      Except.ok { command := "node", args := ["server.js"], env := none } :=
  ⟨(connect_script_kind_dispatch "calculator.txt").1 (by decide) (by decide),
   (connect_script_kind_dispatch "mcp_calculator_server.py").2.1 (by decide),
   (connect_script_kind_dispatch "server.js").2.2 (by decide)⟩

/-- C7: the catalog adapter is a pure function of the descriptor list,
emits exactly one function-style schema entry per descriptor at the same
position (catalog order becomes schema order), and defaults `properties`
to the empty mapping and `required` to the empty collection when the
descriptor's input schema omits them. -/
theorem available_tools_entrywise (tools : List MCPTool) :
    (available_tools tools).length = tools.length ∧
    (∀ i : Nat, ∀ t : MCPTool, tools[i]? = some t →
      (available_tools tools)[i]? = some
        { type := "function"
          function :=
            { name := t.name
              description := t.description
              parameters :=
                { type := "object"
                  properties := t.inputSchema.properties.getD []
                  required := t.inputSchema.required.getD [] } } }) := by
  constructor
  · simp [available_tools]
  · intro i t ht
    simp [available_tools, List.getElem?_map, ht, adaptTool]

/-- C7 witness: the adapter evaluated on a two-descriptor catalog whose
second descriptor omits both schema keys. -/
theorem available_tools_entrywise_witness :
    (available_tools [addTool, bareTool]).length = [addTool, bareTool].length ∧
    (available_tools [addTool, bareTool])[1]? = some
      { type := "function"
        function :=
          { name := bareTool.name
            description := bareTool.description
            parameters :=
              { type := "object"
                properties := bareTool.inputSchema.properties.getD []
                required := bareTool.inputSchema.required.getD [] } } } :=
  ⟨(available_tools_entrywise [addTool, bareTool]).1,
   (available_tools_entrywise [addTool, bareTool]).2 1 bareTool rfl⟩

/-- C3: when the decision call returns no tool calls (key absent or an
empty list), `process_query` makes exactly one model call — no summary
call — and returns the response's text content verbatim, or the fixed
placeholder string when content is absent. -/
theorem no_tool_path_single_model_call
    (model query : String) (session : Session) (ollama : Ollama)
    (tools : List MCPTool) (resp : ChatResponse)
    (hlist : session.list_tools = Except.ok tools)
    (hchat : ollama.chat model [Message.user query] (some (available_tools tools)) = Except.ok resp)
    (hcalls : resp.tool_calls.getD [] = []) :
    numModelCalls (process_query { model := model, session := some session } ollama query).events = 1 ∧
    (∀ s, resp.content = some s →
      (process_query { model := model, session := some session } ollama query).result = Except.ok s) ∧
    (resp.content = none →
      (process_query { model := model, session := some session } ollama query).result =
        Except.ok "Sorry, I received no content.") := by
  refine ⟨?_, ?_, ?_⟩
  · simp [process_query, hlist, hchat, hcalls]
  · intro s hs
    simp [process_query, hlist, hchat, hcalls, hs]
  · intro hs
    simp [process_query, hlist, hchat, hcalls, hs]

/-- C3 witness: a direct-text decision response on the calculator
catalog. -/
theorem no_tool_path_single_model_call_witness :
    numModelCalls (process_query { model := "gpt-oss:20b", session := some demoSession } directOllama "hello").events = 1 ∧
    (process_query { model := "gpt-oss:20b", session := some demoSession } directOllama "hello").result =
      Except.ok "Hi there!" := by
  have h := no_tool_path_single_model_call "gpt-oss:20b" "hello" demoSession directOllama
    [addTool, mathWebSearchTool] { content := some "Hi there!", tool_calls := none } rfl rfl rfl
  exact ⟨h.1, h.2.1 "Hi there!" rfl⟩

/-- C5 counterexample: on a query whose decision call returns direct
text, the code makes exactly one model call, so the count is neither
zero nor two as the claim states. -/
theorem model_call_count_not_zero_or_two :
    ¬ (numModelCalls (process_query { model := "gpt-oss:20b", session := some demoSession } directOllama "hello").events = 0 ∨
       numModelCalls (process_query { model := "gpt-oss:20b", session := some demoSession } directOllama "hello").events = 2) := by
  have h : numModelCalls (process_query { model := "gpt-oss:20b", session := some demoSession } directOllama "hello").events = 1 := rfl
  rw [h]
  simp

/-- C5 (amended): for every query, `process_query` performs at most two
model calls — zero, one, or two: one decision call when a session is
present and the listing succeeds, plus one summary call only if tools
were invoked — and at most one tool-offering model call, so it never
loops back to offer the model another round of tool calls. -/
theorem model_call_count_at_most_two (client : MCPClient) (ollama : Ollama) (query : String) :
    numModelCalls (process_query client ollama query).events ≤ 2 ∧
    numDecisionCalls (process_query client ollama query).events ≤ 1 := by
  obtain ⟨model, session⟩ := client
  cases session with
  | none => simp [process_query]
  | some s =>
    cases hl : s.list_tools with
    | error e => simp [process_query, hl]
    | ok tools =>
      cases hc : ollama.chat model [Message.user query] (some (available_tools tools)) with
      | error e => simp [process_query, hl, hc]
      | ok resp =>
        by_cases hemp : (resp.tool_calls.getD []).isEmpty
        · simp [process_query, hl, hc, hemp]
        · simp [process_query, hl, hc, hemp]

/-- C1: when the decision call requests at least one tool call,
`process_query` makes exactly two model calls, and the `tool` messages
appended to the conversation are exactly one per requested call, in the
order the model emitted the requests (not catalog order). -/
theorem tool_path_two_model_calls_and_request_order
    (model query : String) (session : Session) (ollama : Ollama)
    (tools : List MCPTool) (resp : ChatResponse) (calls : List ToolCall)
    (hlist : session.list_tools = Except.ok tools)
    (hchat : ollama.chat model [Message.user query] (some (available_tools tools)) = Except.ok resp)
    (hcalls : resp.tool_calls = some calls)
    (hne : calls ≠ []) :
    numModelCalls (process_query { model := model, session := some session } ollama query).events = 2 ∧
    toolMessageContents (process_query { model := model, session := some session } ollama query).final_messages =
      (calls.map fun tc => (toolOutcome session tc).2) := by
  have hne' : calls.isEmpty = false := by
    cases calls with
    | nil => exact absurd rfl hne
    | cons a l => rfl
  constructor <;> simp [process_query, hlist, hchat, hcalls, hne']

/-- C1 witness: catalog order is `[add, math_web_search]` but the
decision call requests `[math_web_search, add]`; the run makes two model
calls and the `tool` messages follow the requested order. -/
theorem tool_path_two_model_calls_and_request_order_witness :
    numModelCalls (process_query { model := "gpt-oss:20b", session := some demoSession } reorderOllama "what is 2+2").events = 2 ∧
    toolMessageContents (process_query { model := "gpt-oss:20b", session := some demoSession } reorderOllama "what is 2+2").final_messages =
      ([demoCallB, demoCallA].map fun tc => (toolOutcome demoSession tc).2) :=
  tool_path_two_model_calls_and_request_order "gpt-oss:20b" "what is 2+2" demoSession reorderOllama
    [addTool, mathWebSearchTool] reorderResponse [demoCallB, demoCallA] rfl rfl rfl (by simp)

/-- C2: failing tool calls do not abort the loop. Every requested call
is invoked, in order; the `tool` messages are one per requested call
whether it failed or not; the summary model call still occurs (two model
calls in total); and a call whose invocation raised `e` is recorded as
the textual error description, in a report line and a `tool` message of
the same shape a success would produce. -/
theorem tool_failures_do_not_abort_loop
    (model query : String) (session : Session) (ollama : Ollama)
    (tools : List MCPTool) (resp : ChatResponse) (calls : List ToolCall)
    (hlist : session.list_tools = Except.ok tools)
    (hchat : ollama.chat model [Message.user query] (some (available_tools tools)) = Except.ok resp)
    (hcalls : resp.tool_calls = some calls)
    (hne : calls ≠ []) :
    toolInvocations (process_query { model := model, session := some session } ollama query).events =
      (calls.map fun tc => (tc.name, tc.args)) ∧
    numModelCalls (process_query { model := model, session := some session } ollama query).events = 2 ∧
    toolMessageContents (process_query { model := model, session := some session } ollama query).final_messages =
      (calls.map fun tc => (toolOutcome session tc).2) ∧
    (∀ tc e, session.call_tool tc.name tc.args = Except.error e →
      toolOutcome session tc =
        ("[" ++ ("Error calling tool '" ++ tc.name ++ "': " ++ e) ++ "]",
         "Error calling tool '" ++ tc.name ++ "': " ++ e)) := by
  have hne' : calls.isEmpty = false := by
    cases calls with
    | nil => exact absurd rfl hne
    | cons a l => rfl
  refine ⟨?_, ?_, ?_, ?_⟩
  · simp [process_query, hlist, hchat, hcalls, hne']
  · simp [process_query, hlist, hchat, hcalls, hne']
  · simp [process_query, hlist, hchat, hcalls, hne']
  · intro tc e he
    simp [toolOutcome, he]

/-- C2 witness: the decision call requests the nonexistent tool `divide`
and then `add`; both invocations run in order, the failure is recorded
as an error text, and the summary call still occurs. -/
theorem tool_failures_do_not_abort_loop_witness :
    toolInvocations (process_query { model := "gpt-oss:20b", session := some demoSession } divideThenAddOllama "divide then add").events =
      ([{ name := "divide", args := [("a", "4"), ("b", "2")] }, demoCallA].map fun tc => (tc.name, tc.args)) ∧
    numModelCalls (process_query { model := "gpt-oss:20b", session := some demoSession } divideThenAddOllama "divide then add").events = 2 ∧
    toolMessageContents (process_query { model := "gpt-oss:20b", session := some demoSession } divideThenAddOllama "divide then add").final_messages =
      ([{ name := "divide", args := [("a", "4"), ("b", "2")] }, demoCallA].map fun tc => (toolOutcome demoSession tc).2) ∧
    (∀ tc e, demoSession.call_tool tc.name tc.args = Except.error e →
      toolOutcome demoSession tc =
        ("[" ++ ("Error calling tool '" ++ tc.name ++ "': " ++ e) ++ "]",
         "Error calling tool '" ++ tc.name ++ "': " ++ e)) :=
  tool_failures_do_not_abort_loop "gpt-oss:20b" "divide then add" demoSession divideThenAddOllama
    [addTool, mathWebSearchTool] divideThenAddResponse
    [{ name := "divide", args := [("a", "4"), ("b", "2")] }, demoCallA] rfl rfl rfl (by simp)

/-- C4: on the tool-call path the returned string is exactly the
accumulated per-tool report lines joined by newlines, then the blank
separator, then the summary call's text. -/
theorem tool_path_output_composition
    (model query : String) (session : Session) (ollama : Ollama)
    (tools : List MCPTool) (resp : ChatResponse) (calls : List ToolCall)
    (final_response : ChatResponse) (final_message : String)
    (hlist : session.list_tools = Except.ok tools)
    (hchat : ollama.chat model [Message.user query] (some (available_tools tools)) = Except.ok resp)
    (hcalls : resp.tool_calls = some calls)
    (hne : calls ≠ [])
    (hsum : ollama.chat model (Message.user query :: Message.assistant resp ::
      (calls.map fun tc => Message.tool (toolOutcome session tc).2)) none = Except.ok final_response)
    (hcontent : final_response.content = some final_message) :
    (process_query { model := model, session := some session } ollama query).result =
      Except.ok (String.intercalate "\n" (calls.map fun tc => (toolOutcome session tc).1) ++
        "\n\n" ++ final_message) := by
  have hne' : calls.isEmpty = false := by
    cases calls with
    | nil => exact absurd rfl hne
    | cons a l => rfl
  simp [process_query, hlist, hchat, hcalls, hne', hsum, hcontent]

/-- C4 witness: the composed output of the reordered two-call run,
ending in the summary text. -/
theorem tool_path_output_composition_witness :
    (process_query { model := "gpt-oss:20b", session := some demoSession } reorderOllama "what is 2+2").result =
      Except.ok (String.intercalate "\n" ([demoCallB, demoCallA].map fun tc => (toolOutcome demoSession tc).1) ++
        "\n\n" ++ "The answer is 4.") :=
  tool_path_output_composition "gpt-oss:20b" "what is 2+2" demoSession reorderOllama
    [addTool, mathWebSearchTool] reorderResponse [demoCallB, demoCallA]
    { content := some "The answer is 4.", tool_calls := none } "The answer is 4."
    rfl rfl rfl (by simp) rfl rfl

/-- C6: when the decision response carries both text content and a
non-empty tool-call list, the loop takes the tool-call path: every
requested call is invoked and a second (summary) model call occurs. -/
theorem tool_calls_take_precedence_over_content
    (model query : String) (session : Session) (ollama : Ollama)
    (tools : List MCPTool) (resp : ChatResponse) (calls : List ToolCall) (s : String)
    (hlist : session.list_tools = Except.ok tools)
    (hchat : ollama.chat model [Message.user query] (some (available_tools tools)) = Except.ok resp)
    (hcontent : resp.content = some s)
    (hcalls : resp.tool_calls = some calls)
    (hne : calls ≠ []) :
    toolInvocations (process_query { model := model, session := some session } ollama query).events =
      (calls.map fun tc => (tc.name, tc.args)) ∧
    numModelCalls (process_query { model := model, session := some session } ollama query).events = 2 := by
  have hne' : calls.isEmpty = false := by
    cases calls with
    | nil => exact absurd rfl hne
    | cons a l => rfl
  constructor <;> simp [process_query, hlist, hchat, hcalls, hne']

/-- C6 witness: a decision response carrying both text and one `add`
call still invokes the tool and makes the summary call. -/
theorem tool_calls_take_precedence_over_content_witness :
    toolInvocations (process_query { model := "gpt-oss:20b", session := some demoSession } bothOllama "add 2 and 2").events =
      ([demoCallA].map fun tc => (tc.name, tc.args)) ∧
    numModelCalls (process_query { model := "gpt-oss:20b", session := some demoSession } bothOllama "add 2 and 2").events = 2 :=
  tool_calls_take_precedence_over_content "gpt-oss:20b" "add 2 and 2" demoSession bothOllama
    [addTool, mathWebSearchTool] bothResponse [demoCallA] "I will add those."
    rfl rfl rfl rfl (by simp)

/-- C8: a failing per-query tool listing fails the whole query (no model
call is made and nothing is absorbed into a `tool` message), and a
failing summary call also fails the whole query (the failure is not
recorded as a `tool` message either). -/
theorem listing_and_summary_failures_abort
    (model query : String) (session : Session) (ollama : Ollama) :
    (∀ e, session.list_tools = Except.error e →
      (process_query { model := model, session := some session } ollama query).result =
          Except.error (QueryError.toolListing e) ∧
        numModelCalls (process_query { model := model, session := some session } ollama query).events = 0 ∧
        toolMessageContents (process_query { model := model, session := some session } ollama query).final_messages = []) ∧
    (∀ tools resp calls e, session.list_tools = Except.ok tools →
      ollama.chat model [Message.user query] (some (available_tools tools)) = Except.ok resp →
      resp.tool_calls = some calls → calls ≠ [] →
      ollama.chat model (Message.user query :: Message.assistant resp ::
        (calls.map fun tc => Message.tool (toolOutcome session tc).2)) none = Except.error e →
      (process_query { model := model, session := some session } ollama query).result =
          Except.error (QueryError.summaryCall e) ∧
        toolMessageContents (process_query { model := model, session := some session } ollama query).final_messages =
          (calls.map fun tc => (toolOutcome session tc).2)) := by
  constructor
  · intro e hl
    refine ⟨?_, ?_, ?_⟩ <;> simp [process_query, hl]
  · intro tools resp calls e hl hc hcalls hne hsum
    have hne' : calls.isEmpty = false := by
      cases calls with
      | nil => exact absurd rfl hne
      | cons a l => rfl
    constructor <;> simp [process_query, hl, hc, hcalls, hne', hsum]

/-- C8 witness: a raising tool listing fails one concrete query with the
listing error, and a raising summary call fails another with the summary
error. -/
theorem listing_and_summary_failures_abort_witness :
    (process_query { model := "gpt-oss:20b", session := some failingListSession } directOllama "q").result =
      Except.error (QueryError.toolListing "listing failed") ∧
    (process_query { model := "gpt-oss:20b", session := some demoSession } failingSummaryOllama "add 2 and 2").result =
      Except.error (QueryError.summaryCall "summary failed") :=
  ⟨((listing_and_summary_failures_abort "gpt-oss:20b" "q" failingListSession directOllama).1
      "listing failed" rfl).1,
   ((listing_and_summary_failures_abort "gpt-oss:20b" "add 2 and 2" demoSession failingSummaryOllama).2
      [addTool, mathWebSearchTool] addOnlyResponse [demoCallA] "summary failed"
      rfl rfl rfl (by simp) rfl).1⟩
